import Mathlib

/-!
Verification of the protocol layer of the `factom-rust-client` repository
(`src/api.rs`, `src/balance.rs`): endpoint configuration and URI
normalization, the client record and its constructors, correlation-id
operations, cloning, request-builder setup, and the per-call envelope
construction of the balance module.

Machine integers (`usize`) are modelled as `Nat` with explicit reduction
modulo `2 ^ USIZE_BITS` wherever the Rust code uses wrapping arithmetic.
Fallible operations that panic in Rust (`.expect(..)`) are modelled as
`Option`, with `none` standing for the panic.
-/

/-- Pointer width of the targets this crate builds for; `usize` is 64 bits
wide there, so `Wrapping<usize>` arithmetic reduces modulo `2 ^ 64`. -/
def USIZE_BITS : Nat := 64

/-! ## URL model

`api.rs` normalizes host strings with the `url` crate (`Url::parse`,
`Url::set_path`, `Url::into_string`) and then re-parses the result as an
`http::Uri`.  Both crates accept the hierarchical form
`scheme://host[/path]` that every URL handled by this repository has; the
model below embeds exactly that grammar (no query/fragment/userinfo, and
opaque non-hierarchical URLs are treated as unparseable).  The authority
(host plus optional `:port`) is kept as one character sequence, since the
code never inspects it apart from serializing it back. -/

/-- First character of a URL scheme: an ASCII letter. -/
def isSchemeHeadChar (c : Char) : Bool := c.isAlpha

/-- Subsequent characters of a URL scheme. -/
def isSchemeChar (c : Char) : Bool :=
  c.isAlpha || c.isDigit || c = '+' || c = '-' || c = '.'

/-- A parsed absolute hierarchical URL: scheme, authority (host with an
optional port), and path.  The path of a parsed URL always begins with
`'/'` (the `url` crate normalizes an absent path to `"/"` for http(s)). -/
structure Url where
  scheme : List Char
  host : List Char
  path : List Char
deriving DecidableEq

/-- Parse of an absolute hierarchical URL `scheme://host[/path]`, modelling
`url::Url::parse` (and the `http::Uri` parse of the same strings) on the
inputs this repository feeds it.  Scheme-less inputs and inputs with an
empty host yield `none`, which in the Rust code is a `ParseError` panic. -/
def parseChars (l : List Char) : Option Url :=
  let sch := l.takeWhile isSchemeChar
  let rest := l.dropWhile isSchemeChar
  if isSchemeHeadChar (sch.headD ' ') then
    if rest.take 3 = [':', '/', '/'] then
      let rest2 := rest.drop 3
      let host := rest2.takeWhile (fun c => c ≠ '/')
      let path := rest2.dropWhile (fun c => c ≠ '/')
      if host.isEmpty then none
      else some { scheme := sch, host := host,
                  path := if path.isEmpty then ['/'] else path }
    else none
  else none

/-- `url::Url::parse` on a `String`. -/
def Url.parse (s : String) : Option Url := parseChars s.toList

/-- `url::Url::set_path`: replaces the path component outright; a missing
leading slash is supplied by the crate for hierarchical URLs. -/
def Url.set_path (u : Url) (p : List Char) : Url :=
  { u with path := if p.headD ' ' = '/' then p else '/' :: p }

/-- `url::Url::into_string`: serializes the URL back to text. -/
def Url.into_string (u : Url) : String :=
  String.mk (u.scheme ++ ':' :: '/' :: '/' :: u.host ++ u.path)

/-- The shape every URL produced by `parseChars` has, sufficient for the
serialize/re-parse round trip: a nonempty scheme of scheme characters
starting with a letter, a nonempty slash-free host, and a path starting
with `'/'`. -/
def Url.wellFormed (u : Url) : Bool :=
  isSchemeHeadChar (u.scheme.headD ' ') &&
  u.scheme.all isSchemeChar &&
  !u.host.isEmpty &&
  u.host.all (fun c => c ≠ '/') &&
  (u.path.headD ' ' == '/')

/-- The `http::Uri` type observed by this repository carries the same three
components the `Url` model does, and parses the same hierarchical strings,
so it is modelled by the same record. -/
abbrev Uri := Url

/-! ## Constants

`api.rs` imports these from a `constants` module that is not among the
provided source files, so their values are modelled from the spec. -/

/-- Modelled from the spec: the `constants` module is absent from the
sources; the spec fixes the default node endpoint as loopback port 8088. -/
def FACTOMD_DEFAULT : String := "http://localhost:8088"

/-- Modelled from the spec: the `constants` module is absent from the
sources; the spec fixes the default wallet endpoint as loopback port 8089. -/
def WALLETD_DEFAULT : String := "http://localhost:8089"

/-- Modelled from the spec: the `constants` module is absent from the
sources; the doc comment of `open_node` names `https://api.factomd.net`.
No theorem below depends on this value except through the constructors
that parse it. -/
def OPENNODE_URI : String := "https://api.factomd.net"

/-- Modelled from the spec: the `constants` module is absent from the
sources; the spec fixes the api-version path suffix as `/v2`. -/
def API_VERSION : String := "/v2"

/-- Modelled from the spec: the `constants` module is absent from the
sources; the spec fixes the debug path suffix as `/debug`. -/
def DEBUG : String := "/debug"

/-- Modelled from the spec: the `constants` module is absent from the
sources; `ID` is the constant every constructor stores as the initial
correlation id.  The claims below depend only on all constructors using
the same constant, not on its value. -/
def ID : Nat := 0

/-- `http::header::CONTENT_TYPE`, the `content-type` header name. -/
def CONTENT_TYPE : String := "content-type"

/-! ## URI normalization (`api.rs`) -/

/-- `inner_parse_uri`: parses the host, replaces its path with the given
one, serializes, and re-parses the result as an `http::Uri`.  The two
`.expect(..)` panics of the Rust function are the two `none` outcomes. -/
def inner_parse_uri (host : List Char) (path : List Char) : Option Uri := do
  let url ← parseChars host
  let url := url.set_path path
  let output ← parseChars (url.into_string).toList
  some output

/-- `parse_uri`: parses the host and installs the api version path. -/
def parse_uri (host : String) : Option Uri :=
  inner_parse_uri host.toList API_VERSION.toList

/-- `parse_debug_uri`: parses the host and installs the debug path. -/
def parse_debug_uri (host : String) : Option Uri :=
  inner_parse_uri host.toList DEBUG.toList

/-! ## Transport and request builders (`api.rs`) -/

/-- The hyper https client.  Its internals (connection pool, TLS) are
outside a pure model; it is modelled as an opaque handle whose `clone`
yields the same shared handle, which is all the claims observe. -/
abbrev HttpsClient : Type := Nat

/-- `new_client()`: builds the https transport.  The model returns the
canonical handle; the construction itself (TLS setup, pooling) has no
observable structure in the claims. -/
def new_client : HttpsClient := (0 : Nat)

/-- `http::request::Builder` as observed here: the method, the header
list, and the target URI accumulated by the chained calls. -/
structure Builder where
  method : String
  headers : List (String × String)
  uri : Option Uri
deriving DecidableEq

/-- `Request::builder()`: a fresh builder (method defaults to GET, no
headers, no URI). -/
def Request.builder : Builder :=
  { method := "GET", headers := [], uri := none }

/-- The builder's `method(..)` call. -/
def Builder.set_method (b : Builder) (m : String) : Builder :=
  { b with method := m }

/-- The builder's `header(..)` call: appends a header. -/
def Builder.header (b : Builder) (k v : String) : Builder :=
  { b with headers := b.headers ++ [(k, v)] }

/-- The builder's `uri(..)` call. -/
def Builder.set_uri (b : Builder) (u : Uri) : Builder :=
  { b with uri := some u }

/-- `request_builder`: the basis of every outgoing request minus the body;
POST with a json content type aimed at the given URI. -/
def request_builder (uri : Uri) : Builder :=
  ((Request.builder.set_method "POST").header CONTENT_TYPE
    "application/json").set_uri uri

/-! ## The client record and its constructors (`api.rs`) -/

/-- The `Factom` struct: transport, the three request builders, the three
endpoint URIs, and the correlation id (`Wrapping<usize>`, modelled as a
`Nat` reduced modulo `2 ^ USIZE_BITS` by the wrapping operations). -/
structure Factom where
  client : HttpsClient
  factomd : Builder
  walletd : Builder
  debug : Builder
  factomd_uri : Uri
  walletd_uri : Uri
  debug_uri : Uri
  id : Nat
deriving DecidableEq

/-- `Factom::local_node()`: the default host locations.  `none` models the
construction panicking on an unparseable host, which the default constants
never trigger. -/
def Factom.local_node : Option Factom := do
  let factomd_uri ← parse_uri FACTOMD_DEFAULT
  let walletd_uri ← parse_uri WALLETD_DEFAULT
  let debug_uri ← parse_debug_uri FACTOMD_DEFAULT
  some { client := new_client,
         factomd := request_builder factomd_uri,
         walletd := request_builder walletd_uri,
         debug := request_builder debug_uri,
         factomd_uri := factomd_uri,
         walletd_uri := walletd_uri,
         debug_uri := debug_uri,
         id := ID }

/-- `Factom::new()`: equivalent to `Factom::local_node()`. -/
def Factom.new : Option Factom :=
  Factom.local_node

/-- `Factom::open_node()`: open node for factomd, local wallet. -/
def Factom.open_node : Option Factom := do
  let factomd_uri ← parse_uri OPENNODE_URI
  let walletd_uri ← parse_uri WALLETD_DEFAULT
  let debug_uri ← parse_debug_uri OPENNODE_URI
  some { client := new_client,
         factomd := request_builder factomd_uri,
         walletd := request_builder walletd_uri,
         debug := request_builder debug_uri,
         factomd_uri := factomd_uri,
         walletd_uri := walletd_uri,
         debug_uri := debug_uri,
         id := ID }

/-- `Factom::testnet_node()`: its body parses `OPENNODE_URI` for both the
factomd and the debug endpoint, exactly as `open_node` does, although its
doc comment advertises `https://dev.factomd.net`. -/
def Factom.testnet_node : Option Factom := do
  let factomd_uri ← parse_uri OPENNODE_URI
  let walletd_uri ← parse_uri WALLETD_DEFAULT
  let debug_uri ← parse_debug_uri OPENNODE_URI
  some { client := new_client,
         factomd := request_builder factomd_uri,
         walletd := request_builder walletd_uri,
         debug := request_builder debug_uri,
         factomd_uri := factomd_uri,
         walletd_uri := walletd_uri,
         debug_uri := debug_uri,
         id := ID }

/-- `Factom::custom_node(factomd, walletd)`: caller-supplied hosts; debug
derived from the factomd host.  `none` models the parse panics. -/
def Factom.custom_node (factomd : String) (walletd : String) : Option Factom := do
  let factomd_uri ← parse_uri factomd
  let walletd_uri ← parse_uri walletd
  let debug_uri ← parse_debug_uri factomd
  some { client := new_client,
         factomd := request_builder factomd_uri,
         walletd := request_builder walletd_uri,
         debug := request_builder debug_uri,
         factomd_uri := factomd_uri,
         walletd_uri := walletd_uri,
         debug_uri := debug_uri,
         id := ID }

/-! ## Correlation id operations (`api.rs`)

`increment_id` and `set_id` are declared `pub fn _(mut self, ..)`: they
take the client **by value**, mutate the local copy, and return `()`.
The model therefore splits each into the value the function body computes
on its local copy (`*_body`) and the function as the caller sees it,
which consumes the client and returns unit, dropping the updated copy. -/

/-- The local state `increment_id`'s body leaves behind:
`self.id += Wrapping(1)`, wrapping `usize` addition. -/
def Factom.increment_id_body (self : Factom) : Factom :=
  { self with id := (self.id + 1) % 2 ^ USIZE_BITS }

/-- `Factom::increment_id(mut self)`: consumes the client and returns
`()`; the incremented local copy is dropped, never handed back. -/
def Factom.increment_id (self : Factom) : Unit :=
  let _updated := self.increment_id_body
  ()

/-- The local state `set_id`'s body leaves behind:
`self.id = Wrapping(id)`. -/
def Factom.set_id_body (self : Factom) (id : Nat) : Factom :=
  { self with id := id }

/-- `Factom::set_id(mut self, id)`: consumes the client and returns `()`;
the updated local copy is dropped, never handed back. -/
def Factom.set_id (self : Factom) (id : Nat) : Unit :=
  let _updated := self.set_id_body id
  ()

/-- `impl Clone for Factom`: clones the transport handle, rebuilds the
three request builders from the cloned URIs, and copies the id value. -/
def Factom.clone (self : Factom) : Factom :=
  { client := self.client,
    factomd := request_builder self.factomd_uri,
    walletd := request_builder self.walletd_uri,
    debug := request_builder self.debug_uri,
    factomd_uri := self.factomd_uri,
    walletd_uri := self.walletd_uri,
    debug_uri := self.debug_uri,
    id := self.id }

/-! ## Request envelopes and the balance calls (`balance.rs`)

`balance.rs` builds one `ApiRequest` per call with `ApiRequest::new`,
inserts its parameters, and hands it to `self.factomd_call(req)` followed
by `parse(response)`.  `ApiRequest`, `factomd_call` and `parse` live in
modules absent from the provided sources, so they are modelled from the
spec below.  The HTTP exchange and response parsing have no observable
structure in the claims; a call is modelled up to the envelope it
dispatches and the endpoint it dispatches to. -/

/-- The JSON values the balance module feeds to `json!`: strings and
arrays of strings. -/
inductive Json where
  | str : String → Json
  | arr : List Json → Json

/-- Map insert on the parameter mapping (string key to JSON value, keys
unique): replaces the value at an existing key, otherwise appends. -/
def insertParam : List (String × Json) → String → Json → List (String × Json)
  | [], k, v => [(k, v)]
  | (k', v') :: rest, k, v =>
    if k' = k then (k, v) :: rest else (k', v') :: insertParam rest k v

/-- Modelled from the spec: the `ApiRequest` envelope type is absent from
the provided sources; the spec gives it a constant protocol version tag,
a method name, a parameter mapping with unique keys, and a numeric id. -/
structure ApiRequest where
  jsonrpc : String
  id : Nat
  method : String
  params : List (String × Json)

/-- Modelled from the spec: `ApiRequest::new(method)` (absent from the
provided sources) creates an envelope for the given method with an empty
parameter mapping; the version tag is the JSON-RPC 2.0 constant. -/
def ApiRequest.new (method : String) : ApiRequest :=
  { jsonrpc := "2.0", id := ID, method := method, params := [] }

/-- The three logical endpoints a call can be dispatched to. -/
inductive Endpoint where
  | factomd
  | walletd
  | debug
deriving DecidableEq

/-- A dispatched call: which endpoint received which envelope.  This is
the observable content of the shared dispatch-and-parse path; the network
round trip and typed decoding behind it are outside a pure model. -/
structure Call where
  endpoint : Endpoint
  req : ApiRequest

/-- Modelled from the spec: `factomd_call` (absent from the provided
sources) is the shared dispatch path that sends an envelope to the node
endpoint. -/
def Factom.factomd_call (_self : Factom) (req : ApiRequest) : Call :=
  { endpoint := Endpoint.factomd, req := req }

/-- `entry_credit_balance`: envelope method `entry-credit-balance`, the
given address under the key `address`, dispatched via `factomd_call`. -/
def Factom.entry_credit_balance (self : Factom) (address : String) : Call :=
  let req := ApiRequest.new "entry-credit-balance"
  let req := { req with
    params := insertParam req.params "address" (Json.str address) }
  self.factomd_call req

/-- `factoid_balance`: envelope method `factoid-balance`, the given
address under the key `address`, dispatched via `factomd_call`. -/
def Factom.factoid_balance (self : Factom) (address : String) : Call :=
  let req := ApiRequest.new "factoid-balance"
  let req := { req with
    params := insertParam req.params "address" (Json.str address) }
  self.factomd_call req

/-- `multiple_ec_balances`: envelope method `multiple-ec-balances`, the
given address list under the key `addresses`, dispatched via
`factomd_call`. -/
def Factom.multiple_ec_balances (self : Factom) (addresses : List String) : Call :=
  let req := ApiRequest.new "multiple-ec-balances"
  let req := { req with
    params := insertParam req.params "addresses"
      (Json.arr (addresses.map Json.str)) }
  self.factomd_call req

/-- `multiple_fct_balances`: envelope method `multiple-fct-balances`, the
given address list under the key `addresses`, dispatched via
`factomd_call`. -/
def Factom.multiple_fct_balances (self : Factom) (addresses : List String) : Call :=
  let req := ApiRequest.new "multiple-fct-balances"
  let req := { req with
    params := insertParam req.params "addresses"
      (Json.arr (addresses.map Json.str)) }
  self.factomd_call req

/-! ## Helper lemmas about the URL model -/

theorem takeWhile_append_of_all {α : Type} (p : α → Bool) {a : List α}
    (b : List α) (h : ∀ c ∈ a, p c = true) :
    (a ++ b).takeWhile p = a ++ b.takeWhile p := by
  induction a with
  | nil => simp
  | cons x xs ih =>
    have hx : p x = true := h x (List.mem_cons_self x xs)
    have hxs : ∀ c ∈ xs, p c = true := fun c hc => h c (List.mem_cons_of_mem x hc)
    simp [List.takeWhile_cons, hx, ih hxs]

theorem dropWhile_append_of_all {α : Type} (p : α → Bool) {a : List α}
    (b : List α) (h : ∀ c ∈ a, p c = true) :
    (a ++ b).dropWhile p = b.dropWhile p := by
  induction a with
  | nil => simp
  | cons x xs ih =>
    have hx : p x = true := h x (List.mem_cons_self x xs)
    have hxs : ∀ c ∈ xs, p c = true := fun c hc => h c (List.mem_cons_of_mem x hc)
    simp [List.dropWhile_cons, hx, ih hxs]

theorem mem_takeWhile_sat {α : Type} (p : α → Bool) :
    ∀ (l : List α) (c : α), c ∈ l.takeWhile p → p c = true := by
  intro l
  induction l with
  | nil => intro c hc; simp [List.takeWhile] at hc
  | cons x xs ih =>
    intro c hc
    rw [List.takeWhile_cons] at hc
    by_cases hx : p x = true
    · rw [if_pos hx] at hc
      rcases List.mem_cons.mp hc with rfl | hc
      · exact hx
      · exact ih c hc
    · rw [if_neg hx] at hc
      exact absurd hc (List.not_mem_nil c)

theorem dropWhile_head_false {α : Type} (p : α → Bool) :
    ∀ (l : List α) (c : α) (rest : List α),
      l.dropWhile p = c :: rest → p c = false := by
  intro l
  induction l with
  | nil => intro c rest h; simp [List.dropWhile] at h
  | cons x xs ih =>
    intro c rest h
    rw [List.dropWhile_cons] at h
    by_cases hx : p x = true
    · rw [if_pos hx] at h
      exact ih c rest h
    · rw [if_neg hx] at h
      obtain ⟨rfl, -⟩ := List.cons.injEq .. ▸ h
      exact Bool.eq_false_iff.mpr hx

/-- Every URL `parseChars` accepts is well formed. -/
theorem parseChars_wellFormed {l : List Char} {u : Url}
    (h : parseChars l = some u) : u.wellFormed = true := by
  unfold parseChars at h
  by_cases h1 : isSchemeHeadChar ((l.takeWhile isSchemeChar).headD ' ') = true
  · rw [if_pos h1] at h
    by_cases h2 : (l.dropWhile isSchemeChar).take 3 = [':', '/', '/']
    · rw [if_pos h2] at h
      simp only at h
      by_cases h3 : (((l.dropWhile isSchemeChar).drop 3).takeWhile
          (fun c => c ≠ '/')).isEmpty = true
      · rw [if_pos h3] at h; exact absurd h (by simp)
      · rw [if_neg h3] at h
        injection h with h
        subst h
        simp only [Url.wellFormed, Bool.and_eq_true, List.all_eq_true]
        refine ⟨⟨⟨⟨h1, ?_⟩, ?_⟩, ?_⟩, ?_⟩
        · exact fun c hc => mem_takeWhile_sat isSchemeChar l c hc
        · simpa using h3
        · intro c hc
          exact mem_takeWhile_sat (fun c => decide (c ≠ '/')) _ c hc
        · by_cases h4 : (((l.dropWhile isSchemeChar).drop 3).dropWhile
              (fun c => c ≠ '/')).isEmpty = true
          · rw [if_pos h4]; rfl
          · rw [if_neg h4]
            rcases h5 : ((l.dropWhile isSchemeChar).drop 3).dropWhile
                (fun c => c ≠ '/') with - | ⟨c, rest⟩
            · rw [h5] at h4; exact absurd rfl h4
            · have := dropWhile_head_false (fun c => decide (c ≠ '/')) _ c rest h5
              simp only [decide_not, Bool.not_eq_false', decide_eq_true_eq] at this
              simp [h5, this]
    · rw [if_neg h2] at h; exact absurd h (by simp)
  · rw [if_neg h1] at h; exact absurd h (by simp)

/-- `set_path` preserves well-formedness: it only replaces the path, and
the replacement always begins with a slash. -/
theorem set_path_wellFormed {u : Url} (h : u.wellFormed = true)
    (p : List Char) : (u.set_path p).wellFormed = true := by
  simp only [Url.wellFormed, Url.set_path, Bool.and_eq_true] at h ⊢
  refine ⟨⟨⟨⟨h.1.1.1.1, h.1.1.1.2⟩, h.1.1.2⟩, h.1.2⟩, ?_⟩
  by_cases hp : p.headD ' ' = '/'
  · rw [if_pos hp]
    rcases p with - | ⟨c, rest⟩
    · exact absurd hp (by decide)
    · simpa using hp
  · rw [if_neg hp]; rfl

/-- Serialize/re-parse round trip: parsing the rendering of a well-formed
URL recovers it exactly. -/
theorem parseChars_into_string {u : Url} (h : u.wellFormed = true) :
    parseChars (u.into_string).toList = some u := by
  obtain ⟨sch, host, path⟩ := u
  simp only [Url.wellFormed, Bool.and_eq_true, List.all_eq_true] at h
  obtain ⟨⟨⟨⟨h1, h2⟩, h3⟩, h4⟩, h5⟩ := h
  rcases path with - | ⟨c, ps⟩
  · exact absurd h5 (by decide)
  have hc : c = '/' := by simpa using h5
  subst hc
  have htl : ((Url.mk sch host ('/' :: ps)).into_string).toList
      = sch ++ ':' :: '/' :: '/' :: (host ++ '/' :: ps) := by
    simp [Url.into_string]
  have hsch_all : ∀ x ∈ sch, isSchemeChar x = true := h2
  have hhost_all : ∀ x ∈ host, (fun c => decide (c ≠ '/')) x = true := by
    intro x hx
    simpa using h4 x hx
  have htake : (sch ++ ':' :: '/' :: '/' :: (host ++ '/' :: ps)).takeWhile
      isSchemeChar = sch := by
    rw [takeWhile_append_of_all isSchemeChar _ hsch_all]
    simp [List.takeWhile_cons, isSchemeChar]
  have hdrop : (sch ++ ':' :: '/' :: '/' :: (host ++ '/' :: ps)).dropWhile
      isSchemeChar = ':' :: '/' :: '/' :: (host ++ '/' :: ps) := by
    rw [dropWhile_append_of_all isSchemeChar _ hsch_all]
    simp [List.dropWhile_cons, isSchemeChar]
  have htake2 : (host ++ '/' :: ps).takeWhile (fun c => decide (c ≠ '/'))
      = host := by
    rw [takeWhile_append_of_all _ _ hhost_all]
    simp [List.takeWhile_cons]
  have hdrop2 : (host ++ '/' :: ps).dropWhile (fun c => decide (c ≠ '/'))
      = '/' :: ps := by
    rw [dropWhile_append_of_all _ _ hhost_all]
    simp [List.dropWhile_cons]
  unfold parseChars
  rw [htl, htake, hdrop]
  simp only [List.take, List.drop, htake2, hdrop2]
  rw [if_pos (by exact h1)]
  simp only [if_true]
  rw [if_neg (by simpa using h3)]
  simp

/-- The composite normalization path: when the host parses, the result of
`inner_parse_uri` is exactly the parsed URL with its path replaced. -/
theorem inner_parse_uri_set_path {host : List Char} {u : Url}
    (p : List Char) (h : parseChars host = some u) :
    inner_parse_uri host p = some (u.set_path p) := by
  have hwf : (u.set_path p).wellFormed = true :=
    set_path_wellFormed (parseChars_wellFormed h) p
  unfold inner_parse_uri
  rw [h]
  simp only [Option.bind_eq_bind, Option.some_bind]
  rw [parseChars_into_string hwf]
  rfl

/-! ## The claims -/

/-- C1: the claim reads `increment_id` as advancing the client's
correlation id with wrapping `usize` arithmetic.  The wrapping arithmetic
is indeed what the body computes — on its local copy, including the wrap
of the maximum `usize` value to zero — but the Rust function signature is
`pub fn increment_id(mut self)`: it consumes the client by value and
returns `()`, so the incremented copy is dropped and no caller-visible
client ever carries the advanced id.  This theorem records both facts:
the caller receives only `()`, and the discarded local copy holds
`(v + 1) mod 2 ^ wordsize`. -/
theorem c1_increment_id_wraps_but_is_discarded (f : Factom) :
    Factom.increment_id f = ()
    ∧ (Factom.increment_id_body f).id = (f.id + 1) % 2 ^ USIZE_BITS
    ∧ (Factom.increment_id_body { f with id := 2 ^ USIZE_BITS - 1 }).id = 0 := by
  refine ⟨rfl, rfl, ?_⟩
  show (2 ^ USIZE_BITS - 1 + 1) % 2 ^ USIZE_BITS = 0
  decide

/-- C2: the claim reads `set_id(v)` as leaving the client's correlation
id equal to `v`.  The body does store `Wrapping(v)` — in its local copy —
but the Rust signature is `pub fn set_id(mut self, id: usize)`: it
consumes the client by value and returns `()`, so the update is silently
discarded; no caller-visible client holds `v` afterwards. -/
theorem c2_set_id_stores_but_is_discarded (f : Factom) (v : Nat) :
    Factom.set_id f v = () ∧ (Factom.set_id_body f v).id = v :=
  ⟨rfl, rfl⟩

/-- C3: normalization replaces the path component outright — for every
host that parses, `inner_parse_uri host p` is the parsed URL with its
path replaced by `p`; the installed path is exactly the required path and
re-normalizing the rendered result is the identity; replacing before or
after an existing `/v2` path yields the same URI; and the two named
instantiations send `http://host` to `http://host/v2` and
`http://host/debug`. -/
theorem c3_normalize_replaces_path :
    (∀ (host : String) (p : List Char) (u : Url), Url.parse host = some u →
      inner_parse_uri host.toList p = some (u.set_path p))
    ∧ (∀ (host : String) (u : Url), Url.parse host = some u →
      ∃ r, parse_uri host = some r ∧ r.path = API_VERSION.toList ∧
        parse_uri r.into_string = some r)
    ∧ inner_parse_uri "http://h/v2".toList API_VERSION.toList
        = inner_parse_uri "http://h".toList API_VERSION.toList
    ∧ (parse_uri "http://host").map Url.into_string = some "http://host/v2"
    ∧ (parse_debug_uri "http://host").map Url.into_string
        = some "http://host/debug" := by
  have hgen : ∀ (host : String) (p : List Char) (u : Url),
      Url.parse host = some u →
      inner_parse_uri host.toList p = some (u.set_path p) := by
    intro host p u h
    exact inner_parse_uri_set_path p h
  refine ⟨hgen, ?_, by decide, by decide, by decide⟩
  intro host u h
  refine ⟨u.set_path API_VERSION.toList, hgen host API_VERSION.toList u h, rfl, ?_⟩
  have hwf : (u.set_path API_VERSION.toList).wellFormed = true :=
    set_path_wellFormed (parseChars_wellFormed h) API_VERSION.toList
  have hparse : Url.parse (u.set_path API_VERSION.toList).into_string
      = some (u.set_path API_VERSION.toList) := parseChars_into_string hwf
  exact hgen _ API_VERSION.toList (u.set_path API_VERSION.toList) hparse

/-- C3 witness: the general part of the theorem applied to the concrete
host `http://example.com` and path `/v2`. -/
theorem c3_witness :
    Url.parse "http://example.com"
      = some { scheme := "http".toList, host := "example.com".toList,
               path := "/".toList }
    ∧ inner_parse_uri "http://example.com".toList "/v2".toList
      = some ((Url.mk "http".toList "example.com".toList "/".toList).set_path
              "/v2".toList) :=
  ⟨by decide, c3_normalize_replaces_path.1 "http://example.com" "/v2".toList
    { scheme := "http".toList, host := "example.com".toList,
      path := "/".toList } (by decide)⟩

/-- C4: a host string the URL parser rejects makes `custom_node` fail at
construction (`none` models the construction-time panic), and the two
spec edge cases — a scheme-less input and a missing-host input — are
rejected concretely. -/
theorem c4_custom_node_fails_on_unparseable :
    (∀ (factomd walletd : String), Url.parse factomd = none →
      Factom.custom_node factomd walletd = none)
    ∧ Factom.custom_node "host/v2" "http://localhost:8089" = none
    ∧ Factom.custom_node "http://" "http://localhost:8089" = none := by
  refine ⟨?_, by decide, by decide⟩
  intro factomd walletd h
  simp only [Url.parse, String.toList] at h
  simp [Factom.custom_node, parse_uri, inner_parse_uri, String.toList, h]

/-- C4 witness: the general part of the theorem applied to the concrete
scheme-less host `host/v2`. -/
theorem c4_witness :
    Url.parse "host/v2" = none
    ∧ Factom.custom_node "host/v2" "http://localhost:8089" = none :=
  ⟨by decide, c4_custom_node_fails_on_unparseable.1 "host/v2"
    "http://localhost:8089" (by decide)⟩

/-- C5: `clone` keeps the three endpoint URIs, rebuilds the three request
builders from those URIs, clones the transport handle (the same shared
handle in the model), and copies the id value.  Independence of the
copies is inherent to the value semantics of the model (and of
`Wrapping<usize>`, which is `Copy` in the source): an id operation on the
clone's copy computes from the copied value, as the last conjunct
records, and leaves the original term untouched. -/
theorem c5_clone_copies_state (f : Factom) :
    (f.clone).factomd_uri = f.factomd_uri
    ∧ (f.clone).walletd_uri = f.walletd_uri
    ∧ (f.clone).debug_uri = f.debug_uri
    ∧ (f.clone).factomd = request_builder f.factomd_uri
    ∧ (f.clone).walletd = request_builder f.walletd_uri
    ∧ (f.clone).debug = request_builder f.debug_uri
    ∧ (f.clone).client = f.client
    ∧ (f.clone).id = f.id
    ∧ (Factom.increment_id_body (f.clone)).id = (f.id + 1) % 2 ^ USIZE_BITS :=
  ⟨rfl, rfl, rfl, rfl, rfl, rfl, rfl, rfl, rfl⟩

/-- C6: the default constructor's endpoints — node
`http://localhost:8088/v2`, wallet `http://localhost:8089/v2`, debug
`http://localhost:8088/debug` — with `new` delegating to `local_node`. -/
theorem c6_default_endpoints :
    Factom.new = Factom.local_node
    ∧ (Factom.local_node).map (fun f => f.factomd_uri.into_string)
        = some "http://localhost:8088/v2"
    ∧ (Factom.local_node).map (fun f => f.walletd_uri.into_string)
        = some "http://localhost:8089/v2"
    ∧ (Factom.local_node).map (fun f => f.debug_uri.into_string)
        = some "http://localhost:8088/debug" :=
  ⟨rfl, by decide, by decide, by decide⟩

/-- C7: `request_builder` produces, for any URI, a builder with method
POST, exactly the json content-type header, and that URI as target. -/
theorem c7_request_builder_post_json (u : Uri) :
    (request_builder u).method = "POST"
    ∧ (request_builder u).headers = [(CONTENT_TYPE, "application/json")]
    ∧ (request_builder u).uri = some u :=
  ⟨rfl, rfl, rfl⟩

/-- C8: the two balance calls build envelopes with exactly the documented
method names and exactly one parameter key each (`address` bound to the
given address, `addresses` bound to the given list), and both dispatch
through `factomd_call`, the shared node-endpoint path. -/
theorem c8_balance_envelopes (f : Factom) (address : String)
    (addresses : List String) :
    (f.entry_credit_balance address).req.method = "entry-credit-balance"
    ∧ (f.entry_credit_balance address).req.params
        = [("address", Json.str address)]
    ∧ (f.entry_credit_balance address).endpoint = Endpoint.factomd
    ∧ (f.multiple_ec_balances addresses).req.method = "multiple-ec-balances"
    ∧ (f.multiple_ec_balances addresses).req.params
        = [("addresses", Json.arr (addresses.map Json.str))]
    ∧ (f.multiple_ec_balances addresses).endpoint = Endpoint.factomd :=
  ⟨rfl, rfl, rfl, rfl, rfl, rfl⟩

/-- C9: `testnet_node` and `open_node` are the same constructor — their
bodies both parse `OPENNODE_URI` for the node and debug endpoints — so
every endpoint URI and the initial id agree (the final conjunct is the
full equality of the two constructions). -/
theorem c9_testnet_node_equals_open_node :
    Factom.testnet_node.map Factom.factomd_uri
        = Factom.open_node.map Factom.factomd_uri
    ∧ Factom.testnet_node.map Factom.walletd_uri
        = Factom.open_node.map Factom.walletd_uri
    ∧ Factom.testnet_node.map Factom.debug_uri
        = Factom.open_node.map Factom.debug_uri
    ∧ Factom.testnet_node.map Factom.id = Factom.open_node.map Factom.id
    ∧ Factom.testnet_node = Factom.open_node :=
  ⟨rfl, rfl, rfl, rfl, rfl⟩

/-- Any successful `custom_node` construction stores `ID` as the initial
correlation id. -/
theorem custom_node_id_eq (h w : String) :
    ∀ f, Factom.custom_node h w = some f → f.id = ID := by
  intro f hf
  unfold Factom.custom_node at hf
  cases hu : parse_uri h with
  | none => rw [hu] at hf; simp at hf
  | some fu =>
    rw [hu] at hf
    cases hw2 : parse_uri w with
    | none => rw [hw2] at hf; simp at hf
    | some wu =>
      rw [hw2] at hf
      cases hd : parse_debug_uri h with
      | none => rw [hd] at hf; simp at hf
      | some du =>
        rw [hd] at hf
        simp only [Option.bind_eq_bind, Option.some_bind,
          Option.some.injEq] at hf
        rw [← hf]

/-- C10: every constructor initializes the correlation id to the same
constant `ID`, so any two freshly constructed clients start with equal
ids regardless of constructor or host arguments. -/
theorem c10_initial_id_is_ID :
    (∀ f, Factom.new = some f → f.id = ID)
    ∧ (∀ f, Factom.local_node = some f → f.id = ID)
    ∧ (∀ f, Factom.open_node = some f → f.id = ID)
    ∧ (∀ f, Factom.testnet_node = some f → f.id = ID)
    ∧ (∀ h w f, Factom.custom_node h w = some f → f.id = ID) := by
  refine ⟨?_, ?_, ?_, ?_, ?_⟩
  · intro f hf
    exact custom_node_id_eq FACTOMD_DEFAULT WALLETD_DEFAULT f hf
  · intro f hf
    exact custom_node_id_eq FACTOMD_DEFAULT WALLETD_DEFAULT f hf
  · intro f hf
    exact custom_node_id_eq OPENNODE_URI WALLETD_DEFAULT f hf
  · intro f hf
    exact custom_node_id_eq OPENNODE_URI WALLETD_DEFAULT f hf
  · intro h w f hf
    exact custom_node_id_eq h w f hf

/-- C10 witness: the `custom_node` part of the theorem applied to
concrete hosts, the hypothesis evaluated concretely. -/
theorem c10_witness :
    (Factom.custom_node "http://a" "http://b").map Factom.id = some ID := by
  cases hf : Factom.custom_node "http://a" "http://b" with
  | none => exact absurd hf (by decide)
  | some f =>
    simpa [hf] using c10_initial_id_is_ID.2.2.2.2 "http://a" "http://b" f hf
